import Mathlib

/-!
Verification of the TNT-PO-Processor core pipeline.

Shallow embedding of the three backend components:
* `PDFExtractor.validate_po_data`  (backend/pdf_extractor.py)
* `DataTransformer.transform_data` (backend/data_transformer.py)
* `InventoryOptimizer.optimize_allocations` (backend/inventory_optimizer.py)

Numbers: ordered quantities, prices and stock quantities are Python
floats in the source; they are embedded as `ℚ` (exact arithmetic), with
the source's `int(...)` truncations modelled explicitly by `pyInt` and
the float `%` by `pyMod`.  Units-per-order factors are embedded as `ℕ`.
-/

namespace PO

/-- Decimal rendering of a natural number, as Python `str(n)`.
Fuel-based structural recursion so that concrete instances reduce. -/
def decChars : ℕ → ℕ → List Char
  | _, 0 => []
  | 0, _ + 1 => []
  | f + 1, n + 1 => decChars f ((n + 1) / 10) ++ [Nat.digitChar ((n + 1) % 10)]

/-- Python `str` of a natural number. -/
def decString (n : ℕ) : String :=
  if n = 0 then "0" else String.mk (decChars n n)

/-- Python `int()` applied to a rational: truncation toward zero. -/
def pyInt (q : ℚ) : ℤ :=
  if 0 ≤ q then ⌊q⌋ else -⌊-q⌋

/-- Python float `%`: `a % b = a - b * floor(a / b)` (for `b ≠ 0`). -/
def pyMod (a b : ℚ) : ℚ := a - b * ⌊a / b⌋

/-- Python `str` of an integer. -/
def intString (z : ℤ) : String :=
  if z < 0 then "-" ++ decString z.natAbs else decString z.natAbs

/-! ### Line Validator (`PDFExtractor.validate_po_data`)

A raw item is a dict-like record from the scanner.  String fields are
`Option String` (`none` = key absent or value `None`); the numeric fields
carry the result of Python `float(...)` coercion (`none` = the coercion
raises, `some q` = the coerced value; a missing key defaults to `0`, i.e.
`some 0`). -/

structure RawItem where
  po_no : Option String
  store_id : Option String
  internal_reference : Option String
  num_of_order : Option ℚ
  price : Option ℚ
deriving DecidableEq, Inhabited

/-- Python `str.strip()`: drop whitespace from both ends.
List-based so that concrete instances reduce. -/
def pyStrip (s : String) : String :=
  String.mk (((s.data.dropWhile Char.isWhitespace).reverse.dropWhile
    Char.isWhitespace).reverse)

/-- Python truthiness-plus-strip check
`item.get(field) and str(item.get(field)).strip()` on a string field. -/
def requiredOk (o : Option String) : Bool :=
  match o with
  | none => false
  | some s => s ≠ "" && pyStrip s ≠ ""

/-- The keep-condition of `validate_po_data`: all three required fields pass
the truthiness check, and quantity and price coerce to numbers `> 0`. -/
def itemOk (it : RawItem) : Bool :=
  requiredOk it.po_no && requiredOk it.store_id && requiredOk it.internal_reference &&
    match it.num_of_order, it.price with
    | some q, some p => decide (0 < q) && decide (0 < p)
    | _, _ => false

/-- `PDFExtractor.validate_po_data`: the accumulating loop of the source. -/
def validate_po_data (data : List RawItem) : List RawItem :=
  data.foldl (fun acc it => if itemOk it then acc ++ [it] else acc) []

/-- Spec-side keep predicate, following the amended claim wording: the three
required fields are present and non-blank (non-empty after stripping
whitespace), and ordered quantity and price coerce to numbers `> 0`. -/
def specKeep (it : RawItem) : Bool :=
  (match it.po_no with | none => false | some s => pyStrip s ≠ "") &&
  (match it.store_id with | none => false | some s => pyStrip s ≠ "") &&
  (match it.internal_reference with | none => false | some s => pyStrip s ≠ "") &&
  (match it.num_of_order with | none => false | some q => decide (0 < q)) &&
  (match it.price with | none => false | some p => decide (0 < p))

/-! ### Reference Expander / Order Aggregator (`DataTransformer.transform_data`)

`Product` embeds a variant record fetched from Odoo (`product_variants`
entries).  `x_studio_tt_om_int` is `Option ℕ`: `none` models the key being
absent from the record, `some v` the numeric value (Odoo renders an unset
custom field as `False`, i.e. `0`). -/

structure Product where
  pid : ℕ
  name : String
  default_code : String
  x_studio_tt_om_int : Option ℕ
  barcode : Option String
  image_1920 : Option String
  x_studio_canada_east_on_hand : ℚ
  x_studio_ce_available : ℚ
  x_studio_canada_west_on_hand : ℚ
  x_studio_cw_available : ℚ
deriving DecidableEq, Inhabited

/-- A validated PO row (`po_df` row).  Field names mirror the DataFrame
columns: `PO No.`, `Store ID`, `Store Name`, `Order Date`, `Delivery Date`,
`Internal Reference`, `# of Order`, `Price`. -/
structure PORow where
  po_no : String
  store_id : ℕ
  store_name : String
  order_date : String
  delivery_date : String
  internal_reference : String
  num_of_order : ℚ
  price : ℚ
deriving DecidableEq, Inhabited

/-- One expanded order line (`line_data` dict of `transform_data`). -/
structure ExpandedLine where
  store_id : ℕ
  store_name : String
  order_date : String
  delivery_date : String
  po_number : String
  internal_reference : String
  product_id : ℕ
  product_name : String
  barcode : Option String
  product_image : Option String
  warehouse : String
  units_per_order : ℕ
  original_qty : ℚ
  po_unit_price : ℚ
  product_uom_qty : ℚ
  price_unit : ℚ
  total_price : ℚ
  odoo_on_hand : ℚ
  odoo_available : ℚ
  store_on_hand : ℚ
  hist_avg_sales : ℚ
  flagged : Bool
  flag_reason : Option String
  shortage_details : Option String
  so_reference : Option String
deriving DecidableEq, Inhabited

/-- Transformer settings: `warehouse_mapping.cw_stores` and
`tt_store_names`. -/
structure Settings where
  cw_stores : List ℕ
  tt_store_names : List (ℕ × String)
deriving DecidableEq, Inhabited

/-- `DataTransformer.get_warehouse_for_store`. -/
def get_warehouse_for_store (s : Settings) (store_id : ℕ) : String :=
  if store_id ∈ s.cw_stores then "CW" else "CE"

/-- Python `product.get('x_studio_tt_om_int') or 1.0`: a missing key, a
null value or a zero value all yield `1`. -/
def effUnitsPerOrder (o : Option ℕ) : ℕ :=
  match o with
  | none => 1
  | some v => if v = 0 then 1 else v

/-- Python `matched_products.iloc[0].get('x_studio_tt_om_int', 1.0)`: the
default applies only when the key is absent. -/
def baseUnitsPerCase (o : Option ℕ) : ℕ := o.getD 1

/-- Official name lookup `settings.get('tt_store_names', {}).get(...)`
with fallback `f"Store {store_id}"`. -/
def officialName (s : Settings) (store_id : ℕ) : String :=
  match s.tt_store_names.find? (fun x => x.1 = store_id) with
  | some x => x.2
  | none => "Store " ++ decString store_id

/-- `total_units_bundle` of the multi-product branch: the ordered quantity
times the first matched variant's units-per-order factor (a float in the
source). -/
def totalUnitsBundle (row : PORow) (matched : List Product) (p : Product) : ℚ :=
  row.num_of_order *
    ((baseUnitsPerCase ((matched.headD p).x_studio_tt_om_int)) : ℚ)

/-- `units_this_product`: the multi-product branch computes the Python
ints `int(total_units_bundle / num_products)` plus, on index 0,
`int(total_units_bundle % num_products)`; the single-product branch is
the untruncated float `ordered qty * own (defaulted) factor`. -/
def unitsThisProduct (row : PORow) (matched : List Product) (n idx : ℕ)
    (p : Product) : ℚ :=
  if 1 < n then
    ((if idx = 0 then
        pyInt (totalUnitsBundle row matched p / (n : ℚ)) +
          pyInt (pyMod (totalUnitsBundle row matched p) (n : ℚ))
      else pyInt (totalUnitsBundle row matched p / (n : ℚ))) : ℤ)
  else row.num_of_order * ((effUnitsPerOrder p.x_studio_tt_om_int) : ℚ)

/-- `unit_price_per_item`: multi-product branch divides by the first
variant's factor, single-product branch by the variant's own (defaulted)
factor. -/
def unitPriceThisProduct (row : PORow) (matched : List Product) (n : ℕ)
    (p : Product) : ℚ :=
  if 1 < n then
    row.price / ((baseUnitsPerCase ((matched.headD p).x_studio_tt_om_int)) : ℚ)
  else row.price / ((effUnitsPerOrder p.x_studio_tt_om_int) : ℚ)

/-- Build one expanded line for the `idx`-th of the `n` products matching
`row`'s reference (the body of the `for idx, (_, product)` loop). -/
def mkLine (s : Settings) (row : PORow) (matched : List Product) (n idx : ℕ)
    (p : Product) : ExpandedLine :=
  let units_per_order := effUnitsPerOrder p.x_studio_tt_om_int
  let wh := get_warehouse_for_store s row.store_id
  let on_hand := if wh = "CE" then p.x_studio_canada_east_on_hand
    else p.x_studio_canada_west_on_hand
  let available := if wh = "CE" then p.x_studio_ce_available
    else p.x_studio_cw_available
  let qtyPrice : ℚ × ℚ :=
    (unitsThisProduct row matched n idx p, unitPriceThisProduct row matched n p)
  { store_id := row.store_id
    store_name := row.store_name
    order_date := row.order_date
    delivery_date := row.delivery_date
    po_number := row.po_no
    internal_reference := row.internal_reference
    product_id := p.pid
    product_name := p.name
    barcode := p.barcode
    product_image := p.image_1920
    warehouse := wh
    units_per_order := units_per_order
    original_qty := row.num_of_order
    po_unit_price := row.price
    product_uom_qty := qtyPrice.1
    price_unit := qtyPrice.2
    total_price := qtyPrice.1 * qtyPrice.2
    odoo_on_hand := on_hand
    odoo_available := available
    store_on_hand := 0
    hist_avg_sales := 0
    flagged := false
    flag_reason := none
    shortage_details := none
    so_reference := none }

/-- The enumerated loop over the matched products. -/
def expandLines (s : Settings) (row : PORow) (matched : List Product)
    (n : ℕ) : ℕ → List Product → List ExpandedLine
  | _, [] => []
  | idx, p :: rest =>
    mkLine s row matched n idx p :: expandLines s row matched n (idx + 1) rest

/-- The diagnostic recorded for an unmatched reference. -/
def notFoundMsg (row : PORow) : String :=
  "Product not found in Odoo: " ++ row.internal_reference ++
    " (Store: " ++ decString row.store_id ++ ", PO: " ++ row.po_no ++ ")"

/-- Processing of one PO row: look up all matching variants; zero matches
yield no lines and one diagnostic, otherwise one line per variant. -/
def expandRow (s : Settings) (products : List Product) (row : PORow) :
    List ExpandedLine × List String :=
  if (products.filter
      (fun p => p.default_code = row.internal_reference)).isEmpty then
    ([], [notFoundMsg row])
  else
    (expandLines s row
      (products.filter (fun p => p.default_code = row.internal_reference))
      (products.filter (fun p => p.default_code = row.internal_reference)).length
      0
      (products.filter (fun p => p.default_code = row.internal_reference)), [])

/-- The `for _, row in po_df.iterrows()` loop, accumulating lines and
diagnostics in order. -/
def processRows (s : Settings) (products : List Product) :
    List PORow → List ExpandedLine × List String
  | [] => ([], [])
  | row :: rest =>
    let e := expandRow s products row
    let acc := processRows s products rest
    (e.1 ++ acc.1, e.2 ++ acc.2)

/-! ### Order aggregation (second half of `transform_data`) -/

/-- One order summary (header) row. -/
structure OrderSummary where
  store_id : ℕ
  store_name : String
  official_name : String
  warehouse : String
  po_count : ℕ
  po_numbers : String
  so_reference : String
  order_date : String
  delivery_date : String
  total_lines : ℕ
  total_value : ℚ
deriving DecidableEq, Inhabited

/-- The generated SO reference `f"OATS00{current_ref_num}"`. -/
def soRefString (n : ℕ) : String := "OATS00" ++ decString n

/-- `sorted(order_line_details['store_id'].unique().tolist())`.
`sorted` is modelled by `insertionSort`: on a linear order any sort of the
deduplicated ids yields the same, unique, sorted duplicate-free list. -/
def uniqueStores (lines : List ExpandedLine) : List ℕ :=
  List.insertionSort (fun a b => a ≤ b) (lines.map (fun l => l.store_id)).dedup

/-- `sorted(group['po_number'].unique().astype(str).tolist())`. -/
def sortedPoList (group : List ExpandedLine) : List String :=
  List.insertionSort (fun a b => a ≤ b) (group.map (fun l => l.po_number)).dedup

/-- The lines of one destination, in input order. -/
def storeGroup (lines : List ExpandedLine) (sid : ℕ) : List ExpandedLine :=
  lines.filter (fun l => l.store_id = sid)

/-- The summary built for the `idx`-th destination (loop body of
`for index, store_id in enumerate(unique_stores)`). -/
def mkSummary (s : Settings) (lines : List ExpandedLine)
    (starting_so_ref idx sid : ℕ) : OrderSummary :=
  let group := storeGroup lines sid
  let po_list := sortedPoList group
  { store_id := sid
    store_name := (group.map (fun l => l.store_name)).headD ""
    official_name := officialName s sid
    warehouse := get_warehouse_for_store s sid
    po_count := po_list.length
    po_numbers := String.intercalate ", " po_list
    so_reference := soRefString (starting_so_ref + idx)
    order_date := (group.map (fun l => l.order_date)).headD ""
    delivery_date := (group.map (fun l => l.delivery_date)).headD ""
    total_lines := group.length
    total_value := (group.map (fun l => l.total_price)).sum }

/-- The summaries loop, destination index threaded through. -/
def mkSummaries (s : Settings) (lines : List ExpandedLine)
    (starting_so_ref : ℕ) : ℕ → List ℕ → List OrderSummary
  | _, [] => []
  | idx, sid :: rest =>
    mkSummary s lines starting_so_ref idx sid ::
      mkSummaries s lines starting_so_ref (idx + 1) rest

/-- `order_line_details['so_reference'] = ...map(store_so_map)`: a line
whose store id is missing from the map receives no reference (pandas
`NaN`, modelled as `none`). -/
def assignSoRefs (stores : List ℕ) (starting_so_ref : ℕ)
    (lines : List ExpandedLine) : List ExpandedLine :=
  lines.map (fun l =>
    { l with so_reference :=
        if l.store_id ∈ stores then
          some (soRefString (starting_so_ref + stores.indexOf l.store_id))
        else none })

/-- The aggregation step: build summaries and write the SO references back
onto the lines (skipped entirely when there are no lines). -/
def aggregate (s : Settings) (starting_so_ref : ℕ)
    (lines : List ExpandedLine) : List OrderSummary × List ExpandedLine :=
  if lines.isEmpty then ([], lines)
  else
    let stores := uniqueStores lines
    (mkSummaries s lines starting_so_ref 0 stores,
      assignSoRefs stores starting_so_ref lines)

/-- `DataTransformer.transform_data`. -/
def transform_data (s : Settings) (po_df : List PORow)
    (product_variants : List Product) (starting_so_ref : ℕ := 391) :
    List OrderSummary × List ExpandedLine × List String :=
  if po_df.isEmpty then ([], [], ["No PO data to transform"])
  else if product_variants.isEmpty then
    ([], [], ["No product data fetched from Odoo"])
  else
    let step := processRows s product_variants po_df
    let agg := aggregate s starting_so_ref step.1
    (agg.1, agg.2, step.2)

/-! ### Inventory Allocator (`InventoryOptimizer.optimize_allocations`)

The two external tables (historical sales, store inventory) are keyed by
(internal reference, store id), one value per key (the provider returns one
record per requested pair), so the pandas left merge is a key lookup. -/

/-- One row of an external table after column renaming:
`internal_reference`, `store_id`, and the merged value
(`avg_monthly_sales` resp. `quantity`). -/
structure ExtRow where
  internal_reference : String
  store_id : ℕ
  value : ℚ
deriving DecidableEq, Inhabited

/-- Key lookup in an external table. -/
def lookupExt (table : List ExtRow) (ref : String) (sid : ℕ) : Option ℚ :=
  (table.find? (fun r => r.internal_reference = ref && r.store_id = sid)).map
    (fun r => r.value)

/-- The merge phase for one line: with a non-empty table the existing
column is dropped, replaced by the left-merge result, and `NaN` (no match)
is filled with `0`; with an empty table the existing column is kept. -/
def mergeLine (historical_sales store_inventory : List ExtRow)
    (l : ExpandedLine) : ExpandedLine :=
  { l with
    hist_avg_sales :=
      if historical_sales.isEmpty then l.hist_avg_sales
      else (lookupExt historical_sales l.internal_reference l.store_id).getD 0
    store_on_hand :=
      if store_inventory.isEmpty then l.store_on_hand
      else (lookupExt store_inventory l.internal_reference l.store_id).getD 0 }

/-- The (warehouse, reference) group of a line, in input order
(`wh_lines.groupby('internal_reference')`). -/
def whRefGroup (lines : List ExpandedLine) (l : ExpandedLine) :
    List ExpandedLine :=
  lines.filter (fun x =>
    x.warehouse = l.warehouse && x.internal_reference = l.internal_reference)

/-- The shortage detail string
`f"D: {int(total_demand)}, Ava: {int(available_qty)}"`. -/
def shortageDetail (total_demand available_qty : ℚ) : String :=
  "D: " ++ intString (pyInt total_demand) ++ ", Ava: " ++
    intString (pyInt available_qty)

/-- Loose rendering of a rational for the `Available:` messages (the
source interpolates a float; no claim depends on this text). -/
def ratString (q : ℚ) : String :=
  if q.den = 1 then intString q.num
  else intString q.num ++ "/" ++ decString q.den

/-- The reason written when available stock is non-positive: appended to
the group head's current reason when that is a non-empty string. -/
def negAvailReason (current_reason : Option String) (available_qty : ℚ) :
    String :=
  match current_reason with
  | some r =>
    if r ≠ "" then r ++ ", Available: " ++ ratString available_qty
    else "Negative Available: " ++ ratString available_qty
  | none => "Negative Available: " ++ ratString available_qty

/-- The per-group flagging logic applied to one line.  `lines` is the
whole (merged) table; a line is only touched by the `'CE'`/`'CW'`
warehouse loop.  The group quantities of the source loop are: total
demand = sum of the group's unit counts, available and on-hand = the
group's first line's snapshot values. -/
def allocLine (lines : List ExpandedLine) (l : ExpandedLine) : ExpandedLine :=
  if l.warehouse = "CE" ∨ l.warehouse = "CW" then
    if ((whRefGroup lines l).map (fun x => x.odoo_on_hand)).headD 0 ≤ 0 then
      { l with flagged := true, flag_reason := some "0/- On Hand" }
    else if ((whRefGroup lines l).map (fun x => x.product_uom_qty)).sum >
        ((whRefGroup lines l).map (fun x => x.odoo_available)).headD 0 then
      if ((whRefGroup lines l).map (fun x => x.odoo_available)).headD 0 ≤ 0 then
        { l with flagged := true,
                 flag_reason := some (negAvailReason
                   (((whRefGroup lines l).map
                     (fun x => x.flag_reason)).headD none)
                   (((whRefGroup lines l).map
                     (fun x => x.odoo_available)).headD 0)) }
      else
        { l with flag_reason := some "Shortage",
                 shortage_details := some (shortageDetail
                   (((whRefGroup lines l).map
                     (fun x => x.product_uom_qty)).sum)
                   (((whRefGroup lines l).map
                     (fun x => x.odoo_available)).headD 0)) }
    else l
  else l

/-- `InventoryOptimizer.optimize_allocations`: merge the two external
tables, then run the per-(warehouse, reference) checks.  The returned log
list is always empty in the source. -/
def optimize_allocations (line_details : List ExpandedLine)
    (historical_sales store_inventory : List ExtRow) :
    List ExpandedLine × List String :=
  if line_details.isEmpty then (line_details, [])
  else
    let merged := line_details.map (mergeLine historical_sales store_inventory)
    (merged.map (allocLine merged), [])

/-! ### Spec-side definitions

Used to state the claims (or their refutations); written from the spec's
words, not from the source. -/

/-- Lexicographic comparison of strings by code point (Python `<=`). -/
def listLexLE : List Char → List Char → Bool
  | [], _ => true
  | _ :: _, [] => false
  | a :: as, b :: bs =>
    if a < b then true else if b < a then false else listLexLE as bs

/-- Python `min` of two strings. -/
def minString (a b : String) : String :=
  if listLexLE a.data b.data then a else b

/-- Modelled from the spec: the earliest of a list of date strings
(dates compare lexicographically in ISO form). -/
def earliestString : List String → String
  | [] => ""
  | d :: rest => rest.foldl minString d

/-- Forget the five allocation-mutable fields of a line (flag, flag
reason, shortage detail, and the two merged external fields); used to
state that the allocator touches nothing else. -/
def eraseMutable (l : ExpandedLine) : ExpandedLine :=
  { l with flagged := false, flag_reason := none, shortage_details := none,
           hist_avg_sales := 0, store_on_hand := 0 }

/-! ### Concrete fixtures for witnesses and counterexamples -/

/-- Empty settings: every store is a CE store, no official names. -/
def wSettings : Settings := { cw_stores := [], tt_store_names := [] }

/-- Variant with reference `654321` and units-per-order `2`. -/
def prodA : Product :=
  { pid := 1, name := "A", default_code := "654321",
    x_studio_tt_om_int := some 2, barcode := some "111", image_1920 := none,
    x_studio_canada_east_on_hand := 10, x_studio_ce_available := 10,
    x_studio_canada_west_on_hand := 0, x_studio_cw_available := 0 }

/-- Variant with reference `654321` and units-per-order `4`. -/
def prodB : Product :=
  { pid := 2, name := "B", default_code := "654321",
    x_studio_tt_om_int := some 4, barcode := some "222", image_1920 := none,
    x_studio_canada_east_on_hand := 10, x_studio_ce_available := 10,
    x_studio_canada_west_on_hand := 0, x_studio_cw_available := 0 }

/-- Variant with reference `111111` and no units-per-order value. -/
def prodC : Product :=
  { pid := 3, name := "C", default_code := "111111",
    x_studio_tt_om_int := none, barcode := some "333", image_1920 := none,
    x_studio_canada_east_on_hand := 10, x_studio_ce_available := 10,
    x_studio_canada_west_on_hand := 0, x_studio_cw_available := 0 }

/-- A PO row ordering 1 case of reference `654321` at line price 8. -/
def rowMulti : PORow :=
  { po_no := "1001", store_id := 101, store_name := "S101",
    order_date := "2024-01-01", delivery_date := "2024-01-05",
    internal_reference := "654321", num_of_order := 1, price := 8 }

/-- A PO row ordering 2 of reference `111111` at line price 24. -/
def rowSingle : PORow :=
  { po_no := "1002", store_id := 101, store_name := "S101",
    order_date := "2024-01-01", delivery_date := "2024-01-05",
    internal_reference := "111111", num_of_order := 2, price := 24 }

/-- A PO row whose reference `999999` matches no variant. -/
def rowNoMatch : PORow :=
  { po_no := "1003", store_id := 102, store_name := "S102",
    order_date := "2024-01-01", delivery_date := "2024-01-05",
    internal_reference := "999999", num_of_order := 1, price := 5 }

/-- Variant with reference `888888` and units-per-order `3` (first of a
pair sharing the reference). -/
def prodE : Product :=
  { pid := 5, name := "E", default_code := "888888",
    x_studio_tt_om_int := some 3, barcode := some "555", image_1920 := none,
    x_studio_canada_east_on_hand := 10, x_studio_ce_available := 10,
    x_studio_canada_west_on_hand := 0, x_studio_cw_available := 0 }

/-- Variant with reference `888888` and units-per-order `3` (second of the
pair). -/
def prodF : Product :=
  { pid := 6, name := "F", default_code := "888888",
    x_studio_tt_om_int := some 3, barcode := some "666", image_1920 := none,
    x_studio_canada_east_on_hand := 10, x_studio_ce_available := 10,
    x_studio_canada_west_on_hand := 0, x_studio_cw_available := 0 }

/-- A PO row with the fractional ordered quantity 1.5 of reference
`888888` at line price 8 (the validator accepts any quantity `> 0`). -/
def rowFrac : PORow :=
  { po_no := "1004", store_id := 101, store_name := "S101",
    order_date := "2024-01-01", delivery_date := "2024-01-05",
    internal_reference := "888888", num_of_order := 3 / 2, price := 8 }

/-- A neutral expanded line; witness lines are updates of it. -/
def baseLine : ExpandedLine :=
  { store_id := 101, store_name := "S101", order_date := "2024-01-01",
    delivery_date := "2024-01-05", po_number := "1001",
    internal_reference := "654321", product_id := 1, product_name := "A",
    barcode := some "111", product_image := none, warehouse := "CE",
    units_per_order := 2, original_qty := 1, po_unit_price := 8,
    product_uom_qty := 2, price_unit := 4, total_price := 8,
    odoo_on_hand := 10, odoo_available := 10, store_on_hand := 0,
    hist_avg_sales := 0, flagged := false, flag_reason := none,
    shortage_details := none, so_reference := none }

/-- An external-table row keyed by a reference/store pair matching no
witness line. -/
def extRowOther : ExtRow :=
  { internal_reference := "777777", store_id := 5, value := 9 }

/-- First line of the shortage-witness group: demand 30 of `R4`. -/
def shortLine1 : ExpandedLine :=
  { baseLine with internal_reference := "R4", product_uom_qty := 30,
                  odoo_available := 30, odoo_on_hand := 100 }

/-- Second line of the shortage-witness group: demand 20 of `R4`. -/
def shortLine2 : ExpandedLine :=
  { baseLine with internal_reference := "R4", product_uom_qty := 20,
                  odoo_available := 30, odoo_on_hand := 100 }

/-- Aggregation-witness line for destination 5. -/
def aggLine5 : ExpandedLine := { baseLine with store_id := 5 }

/-- Aggregation-witness line for destination 9. -/
def aggLine9 : ExpandedLine := { baseLine with store_id := 9 }

/-- First line of destination 7 (later order date first in input order). -/
def dateLine1 : ExpandedLine :=
  { baseLine with store_id := 7, order_date := "2024-02-01",
                  delivery_date := "2024-02-03", po_number := "2002",
                  total_price := 3 }

/-- Second line of destination 7, with the earlier dates. -/
def dateLine2 : ExpandedLine :=
  { baseLine with store_id := 7, order_date := "2024-01-01",
                  delivery_date := "2024-01-03", po_number := "2001",
                  total_price := 4 }

/-! ## Theorems -/

/-! ### Correctness of the decimal rendering -/

theorem decChars_eq_digits : ∀ (f n : ℕ), n ≤ f →
    decChars f n = ((Nat.digits 10 n).map Nat.digitChar).reverse := by
  intro f
  induction f with
  | zero =>
    intro n hn
    interval_cases n
    simp [decChars]
  | succ f ih =>
    intro n hn
    match n with
    | 0 => simp [decChars]
    | m + 1 =>
      rw [decChars]
      have hd : Nat.digits 10 (m + 1) = (m + 1) % 10 :: Nat.digits 10 ((m + 1) / 10) :=
        Nat.digits_def' (by norm_num) (Nat.succ_pos m)
      rw [ih ((m + 1) / 10) (by omega), hd]
      simp

theorem decString_injective : Function.Injective decString := by
  have key : ∀ a b : ℕ, decString a = decString b → a ≤ b → a = b := by
    intro a b h hab
    by_cases ha : a = 0
    · by_cases hb : b = 0
      · omega
      · exfalso
        rw [decString, decString, if_pos ha, if_neg hb,
          decChars_eq_digits b b le_rfl] at h
        have hlist : ['0'] = ((Nat.digits 10 b).map Nat.digitChar).reverse := by
          have := congrArg String.data h
          simpa using this
        have hne : Nat.digits 10 b ≠ [] := Nat.digits_ne_nil_iff_ne_zero.mpr hb
        match hdig : Nat.digits 10 b, hne with
        | [d], _ =>
          rw [hdig] at hlist
          simp at hlist
          have hd10 : d < 10 := Nat.digits_lt_base (by norm_num) (by rw [hdig]; simp)
          have hd0 : d = 0 := by
            have : ∀ x, x < 10 → Nat.digitChar x = '0' → x = 0 := by decide
            exact this d hd10 hlist.symm
          have hb' : b = d := by
            have := congrArg (Nat.ofDigits 10) hdig
            rw [Nat.ofDigits_digits] at this
            simpa using this
          omega
        | d :: e :: l, _ =>
          rw [hdig] at hlist
          have := congrArg List.length hlist
          simp at this
    · by_cases hb : b = 0
      · omega
      · rw [decString, decString, if_neg ha, if_neg hb,
          decChars_eq_digits a a le_rfl, decChars_eq_digits b b le_rfl] at h
        have hlist : ((Nat.digits 10 a).map Nat.digitChar).reverse =
            ((Nat.digits 10 b).map Nat.digitChar).reverse := by
          have := congrArg String.data h
          simpa using this
        have hmap : (Nat.digits 10 a).map Nat.digitChar =
            (Nat.digits 10 b).map Nat.digitChar := by
          have := congrArg List.reverse hlist
          simpa using this
        have hdigs : Nat.digits 10 a = Nat.digits 10 b := by
          have bound : ∀ (l1 l2 : List ℕ), (∀ x ∈ l1, x < 10) → (∀ x ∈ l2, x < 10) →
              l1.map Nat.digitChar = l2.map Nat.digitChar → l1 = l2 := by
            intro l1
            induction l1 with
            | nil => intro l2 _ _ hm; cases l2 <;> simp_all
            | cons x l ih =>
              intro l2 h1 h2 hm
              cases l2 with
              | nil => simp at hm
              | cons y m =>
                simp only [List.map_cons, List.cons.injEq] at hm
                have hx : x < 10 := h1 x (by simp)
                have hy : y < 10 := h2 y (by simp)
                have hxy : x = y := by
                  have : ∀ u, u < 10 → ∀ v, v < 10 →
                      Nat.digitChar u = Nat.digitChar v → u = v := by decide
                  exact this x hx y hy hm.1
                have htl := ih m (fun z hz => h1 z (by simp [hz]))
                  (fun z hz => h2 z (by simp [hz])) hm.2
                rw [hxy, htl]
          exact bound _ _ (fun x hx => Nat.digits_lt_base (by norm_num) hx)
            (fun x hx => Nat.digits_lt_base (by norm_num) hx) hmap
        have := congrArg (Nat.ofDigits 10) hdigs
        rwa [Nat.ofDigits_digits, Nat.ofDigits_digits] at this
  intro a b h
  rcases le_total a b with hab | hba
  · exact key a b h hab
  · exact (key b a h.symm hba).symm


theorem validate_foldl_eq_filter (data : List RawItem) (acc : List RawItem) :
    data.foldl (fun acc it => if itemOk it then acc ++ [it] else acc) acc =
      acc ++ data.filter itemOk := by
  induction data generalizing acc with
  | nil => simp
  | cons it rest ih =>
    by_cases h : itemOk it
    · simp [List.foldl_cons, h, ih, List.filter_cons]
    · simp [List.foldl_cons, h, ih, List.filter_cons]

theorem requiredOk_eq_trim (o : Option String) :
    requiredOk o = (match o with | none => false | some s => pyStrip s ≠ "") := by
  rcases o with _ | s
  · rfl
  · by_cases hs : s = ""
    · subst hs
      simp [requiredOk]
      decide
    · simp [requiredOk, hs]

theorem itemOk_eq_specKeep (it : RawItem) : itemOk it = specKeep it := by
  rcases it with ⟨po, st, ir, q, p⟩
  simp only [itemOk, specKeep, requiredOk_eq_trim]
  rcases q with _ | qv <;> rcases p with _ | pv <;>
    simp [Bool.and_assoc]

/-! ### C9 — validator postcondition -/

/-- Claim C9 as stated is false: a record whose destination id is the
non-empty string `" "` (present, non-empty, positive quantity and price)
is nevertheless dropped, because the validator also strips whitespace. -/
theorem C9_counterexample :
    validate_po_data [({ po_no := some "1001", store_id := some " ",
                         internal_reference := some "123456",
                         num_of_order := some 3,
                         price := some 5 } : RawItem)] = [] ∧
      (some " " : Option String).isSome = true ∧ (" " : String) ≠ "" ∧
      (("1001" : String) ≠ "") ∧ (("123456" : String) ≠ "") ∧
      ((0 : ℚ) < 3) ∧ ((0 : ℚ) < 5) := by
  decide

/-- Claim C9 (amended): the validator returns exactly the subset of
records whose order number, destination id and reference code are present
and non-blank (non-empty after stripping whitespace) and whose ordered
quantity and price coerce to numbers strictly greater than 0; every other
record is dropped and the relative order of kept records is preserved
(the output is a `filter` of the input). -/
theorem C9_validator_postcondition (data : List RawItem) :
    validate_po_data data = data.filter specKeep := by
  rw [validate_po_data, validate_foldl_eq_filter, List.nil_append]
  exact List.filter_congr (fun it _ => itemOk_eq_specKeep it)

/-! ### C4 — allocator non-destructiveness -/

theorem eraseMutable_mergeLine (hs si : List ExtRow) (l : ExpandedLine) :
    eraseMutable (mergeLine hs si l) = eraseMutable l := rfl

theorem eraseMutable_allocLine (ls : List ExpandedLine) (l : ExpandedLine) :
    eraseMutable (allocLine ls l) = eraseMutable l := by
  unfold allocLine
  repeat' split
  all_goals rfl

theorem product_uom_qty_eraseMutable (l : ExpandedLine) :
    (eraseMutable l).product_uom_qty = l.product_uom_qty := rfl

/-- Claim C4: for every input table of lines and every pair of external
tables, `optimize_allocations` preserves every line's `product_uom_qty`;
indeed it preserves everything except the five mutable annotation fields
(flag, flag reason, shortage detail, merged history, merged on-hand). -/
theorem C4_allocator_nondestructive (line_details : List ExpandedLine)
    (historical_sales store_inventory : List ExtRow) :
    ((optimize_allocations line_details historical_sales store_inventory).1).map
        (fun l => l.product_uom_qty) =
      line_details.map (fun l => l.product_uom_qty) ∧
    ((optimize_allocations line_details historical_sales store_inventory).1).map
        eraseMutable =
      line_details.map eraseMutable := by
  unfold optimize_allocations
  split
  · exact ⟨rfl, rfl⟩
  · constructor
    · simp only [List.map_map]
      apply List.map_congr_left
      intro l _
      have h1 := eraseMutable_allocLine
        (line_details.map (mergeLine historical_sales store_inventory))
        (mergeLine historical_sales store_inventory l)
      have h2 := eraseMutable_mergeLine historical_sales store_inventory l
      have : eraseMutable (allocLine
          (line_details.map (mergeLine historical_sales store_inventory))
          (mergeLine historical_sales store_inventory l)) = eraseMutable l :=
        h1.trans h2
      calc (allocLine (line_details.map
            (mergeLine historical_sales store_inventory))
            (mergeLine historical_sales store_inventory l)).product_uom_qty
          = (eraseMutable (allocLine (line_details.map
              (mergeLine historical_sales store_inventory))
              (mergeLine historical_sales store_inventory l))).product_uom_qty := rfl
        _ = (eraseMutable l).product_uom_qty := by rw [this]
        _ = l.product_uom_qty := rfl
    · simp only [List.map_map]
      apply List.map_congr_left
      intro l _
      have h1 := eraseMutable_allocLine
        (line_details.map (mergeLine historical_sales store_inventory))
        (mergeLine historical_sales store_inventory l)
      have h2 := eraseMutable_mergeLine historical_sales store_inventory l
      exact h1.trans h2

/-! ### C6 — merge defaulting -/

theorem allocLine_hist_avg_sales (ls : List ExpandedLine) (l : ExpandedLine) :
    (allocLine ls l).hist_avg_sales = l.hist_avg_sales := by
  unfold allocLine
  repeat' split
  all_goals rfl

theorem allocLine_store_on_hand (ls : List ExpandedLine) (l : ExpandedLine) :
    (allocLine ls l).store_on_hand = l.store_on_hand := by
  unfold allocLine
  repeat' split
  all_goals rfl

theorem optimize_allocations_length (ls : List ExpandedLine)
    (hs si : List ExtRow) :
    (optimize_allocations ls hs si).1.length = ls.length := by
  unfold optimize_allocations
  split
  · rfl
  · simp

theorem optimize_allocations_getD (ls : List ExpandedLine)
    (hs si : List ExtRow) (i : ℕ) (hi : i < ls.length) :
    (optimize_allocations ls hs si).1.getD i default =
      allocLine (ls.map (mergeLine hs si))
        (mergeLine hs si (ls.getD i default)) := by
  unfold optimize_allocations
  have hne : ls.isEmpty = false := by
    cases ls
    · simp at hi
    · rfl
  rw [if_neg (by simp [hne])]
  have h1 : i < ((ls.map (mergeLine hs si)).map
      (allocLine (ls.map (mergeLine hs si)))).length := by simpa using hi
  have h2 : i < (ls.map (mergeLine hs si)).length := by simpa using hi
  rw [List.getD_eq_getElem _ _ h1, List.getD_eq_getElem _ _ hi]
  simp

theorem mergeLine_hist_avg_sales (hs si : List ExtRow) (l : ExpandedLine) :
    (mergeLine hs si l).hist_avg_sales =
      (if hs.isEmpty then l.hist_avg_sales
       else (lookupExt hs l.internal_reference l.store_id).getD 0) := rfl

theorem mergeLine_store_on_hand (hs si : List ExtRow) (l : ExpandedLine) :
    (mergeLine hs si l).store_on_hand =
      (if si.isEmpty then l.store_on_hand
       else (lookupExt si l.internal_reference l.store_id).getD 0) := rfl

/-- Claim C6: a line whose (reference code, destination id) key is absent
from both external tables (its merged fields starting at their
initialization value 0) has both merged fields equal to 0 after
`optimize_allocations`, also when either table is empty. -/
theorem C6_merge_defaulting (line_details : List ExpandedLine)
    (historical_sales store_inventory : List ExtRow)
    (i : ℕ) (hi : i < line_details.length)
    (h0 : (line_details.getD i default).hist_avg_sales = 0)
    (h1 : (line_details.getD i default).store_on_hand = 0)
    (hh : lookupExt historical_sales
        (line_details.getD i default).internal_reference
        (line_details.getD i default).store_id = none)
    (hv : lookupExt store_inventory
        (line_details.getD i default).internal_reference
        (line_details.getD i default).store_id = none) :
    ((optimize_allocations line_details historical_sales
        store_inventory).1.getD i default).hist_avg_sales = 0 ∧
    ((optimize_allocations line_details historical_sales
        store_inventory).1.getD i default).store_on_hand = 0 := by
  rw [optimize_allocations_getD _ _ _ i hi]
  constructor
  · rw [allocLine_hist_avg_sales, mergeLine_hist_avg_sales]
    split
    · exact h0
    · rw [hh]
      rfl
  · rw [allocLine_store_on_hand, mergeLine_store_on_hand]
    split
    · exact h1
    · rw [hv]
      rfl

/-- Witness for C6 at a concrete input: one line with key
`("654321", 101)`, a non-empty historical table without that key, and an
empty inventory table. -/
theorem C6_merge_defaulting_witness :
    (0 < [baseLine].length ∧
      ([baseLine].getD 0 default).hist_avg_sales = 0 ∧
      ([baseLine].getD 0 default).store_on_hand = 0 ∧
      lookupExt [extRowOther] ([baseLine].getD 0 default).internal_reference
        ([baseLine].getD 0 default).store_id = none ∧
      lookupExt [] ([baseLine].getD 0 default).internal_reference
        ([baseLine].getD 0 default).store_id = none) ∧
    ((optimize_allocations [baseLine] [extRowOther] []).1.getD 0
        default).hist_avg_sales = 0 ∧
    ((optimize_allocations [baseLine] [extRowOther] []).1.getD 0
        default).store_on_hand = 0 :=
  ⟨⟨by decide, by decide, by decide, by decide, by decide⟩,
    C6_merge_defaulting [baseLine] [extRowOther] [] 0 (by decide) (by decide)
      (by decide) (by decide) (by decide)⟩

/-! ### C5 — shortage annotation -/

theorem whRefGroup_map_mergeLine (hs si : List ExtRow)
    (ls : List ExpandedLine) (l : ExpandedLine) :
    whRefGroup (ls.map (mergeLine hs si)) (mergeLine hs si l) =
      (whRefGroup ls l).map (mergeLine hs si) := by
  unfold whRefGroup
  rw [List.filter_map]
  congr 1

theorem allocLine_shortage (lines : List ExpandedLine) (l : ExpandedLine)
    (hwh : l.warehouse = "CE" ∨ l.warehouse = "CW")
    (hOn : 0 < ((whRefGroup lines l).map (fun x => x.odoo_on_hand)).headD 0)
    (hAv : 0 < ((whRefGroup lines l).map (fun x => x.odoo_available)).headD 0)
    (hShort : ((whRefGroup lines l).map (fun x => x.odoo_available)).headD 0 <
      ((whRefGroup lines l).map (fun x => x.product_uom_qty)).sum) :
    allocLine lines l =
      { l with flag_reason := some "Shortage",
               shortage_details := some (shortageDetail
                 (((whRefGroup lines l).map
                     (fun x => x.product_uom_qty)).sum)
                 (((whRefGroup lines l).map
                     (fun x => x.odoo_available)).headD 0)) } := by
  unfold allocLine
  rw [if_pos hwh, if_neg (not_le.mpr hOn), if_pos hShort,
    if_neg (not_le.mpr hAv)]

/-- Claim C5: in a (warehouse, reference) group with positive on-hand and
positive available strictly below the group's total demand, every line
gets flag reason `"Shortage"` and a detail string carrying the total
demand and total available, and its unit count is unchanged. -/
theorem C5_shortage_annotation (line_details : List ExpandedLine)
    (historical_sales store_inventory : List ExtRow)
    (i : ℕ) (hi : i < line_details.length)
    (hwh : (line_details.getD i default).warehouse = "CE" ∨
      (line_details.getD i default).warehouse = "CW")
    (hOn : 0 < ((whRefGroup line_details (line_details.getD i default)).map
      (fun x => x.odoo_on_hand)).headD 0)
    (hAv : 0 < ((whRefGroup line_details (line_details.getD i default)).map
      (fun x => x.odoo_available)).headD 0)
    (hShort : ((whRefGroup line_details (line_details.getD i default)).map
        (fun x => x.odoo_available)).headD 0 <
      ((whRefGroup line_details (line_details.getD i default)).map
        (fun x => x.product_uom_qty)).sum) :
    ((optimize_allocations line_details historical_sales
        store_inventory).1.getD i default).flag_reason = some "Shortage" ∧
    ((optimize_allocations line_details historical_sales
        store_inventory).1.getD i default).shortage_details =
      some (shortageDetail
        (((whRefGroup line_details (line_details.getD i default)).map
            (fun x => x.product_uom_qty)).sum)
        (((whRefGroup line_details (line_details.getD i default)).map
            (fun x => x.odoo_available)).headD 0)) ∧
    ((optimize_allocations line_details historical_sales
        store_inventory).1.getD i default).product_uom_qty =
      (line_details.getD i default).product_uom_qty := by
  rw [optimize_allocations_getD _ _ _ i hi]
  have hg := whRefGroup_map_mergeLine historical_sales store_inventory
    line_details (line_details.getD i default)
  have eOn : (whRefGroup (line_details.map
        (mergeLine historical_sales store_inventory))
        (mergeLine historical_sales store_inventory
          (line_details.getD i default))).map (fun x => x.odoo_on_hand) =
      (whRefGroup line_details (line_details.getD i default)).map
        (fun x => x.odoo_on_hand) := by
    rw [hg, List.map_map]
    rfl
  have eAv : (whRefGroup (line_details.map
        (mergeLine historical_sales store_inventory))
        (mergeLine historical_sales store_inventory
          (line_details.getD i default))).map (fun x => x.odoo_available) =
      (whRefGroup line_details (line_details.getD i default)).map
        (fun x => x.odoo_available) := by
    rw [hg, List.map_map]
    rfl
  have eQty : (whRefGroup (line_details.map
        (mergeLine historical_sales store_inventory))
        (mergeLine historical_sales store_inventory
          (line_details.getD i default))).map (fun x => x.product_uom_qty) =
      (whRefGroup line_details (line_details.getD i default)).map
        (fun x => x.product_uom_qty) := by
    rw [hg, List.map_map]
    rfl
  rw [allocLine_shortage _ _ (by exact hwh) (by rw [eOn]; exact hOn)
    (by rw [eAv]; exact hAv) (by rw [eAv, eQty]; exact hShort)]
  refine ⟨rfl, ?_, rfl⟩
  rw [eAv, eQty]

/-- Witness for C5 on Scenario D: two `"R4"` lines in warehouse `"CE"`
with demand 30 + 20 = 50 against available 30 and on-hand 100. -/
theorem C5_shortage_annotation_witness :
    (0 < [shortLine1, shortLine2].length ∧
      ([shortLine1, shortLine2].getD 0 default).warehouse = "CE" ∧
      (0 : ℚ) < ((whRefGroup [shortLine1, shortLine2]
        ([shortLine1, shortLine2].getD 0 default)).map
        (fun x => x.odoo_on_hand)).headD 0 ∧
      shortageDetail 50 30 = "D: 50, Ava: 30") ∧
    ((optimize_allocations [shortLine1, shortLine2] [] []).1.getD 0
        default).flag_reason = some "Shortage" ∧
    ((optimize_allocations [shortLine1, shortLine2] [] []).1.getD 0
        default).shortage_details =
      some (shortageDetail
        (((whRefGroup [shortLine1, shortLine2]
            ([shortLine1, shortLine2].getD 0 default)).map
            (fun x => x.product_uom_qty)).sum)
        (((whRefGroup [shortLine1, shortLine2]
            ([shortLine1, shortLine2].getD 0 default)).map
            (fun x => x.odoo_available)).headD 0)) ∧
    ((optimize_allocations [shortLine1, shortLine2] [] []).1.getD 0
        default).product_uom_qty =
      ([shortLine1, shortLine2].getD 0 default).product_uom_qty :=
  ⟨⟨by decide, by decide, by decide, by decide⟩,
    C5_shortage_annotation [shortLine1, shortLine2] [] [] 0 (by decide)
      (Or.inl (by decide)) (by decide) (by decide)
      (by
        have hg : whRefGroup [shortLine1, shortLine2]
            ([shortLine1, shortLine2].getD 0 default) =
            [shortLine1, shortLine2] := by decide
        rw [hg]
        norm_num [shortLine1, shortLine2, baseLine])⟩

/-! ### C1 — expansion conservation -/

theorem mkLine_product_uom_qty (s : Settings) (row : PORow)
    (matched : List Product) (n idx : ℕ) (p : Product) :
    (mkLine s row matched n idx p).product_uom_qty =
      unitsThisProduct row matched n idx p := rfl

theorem mkLine_price_unit (s : Settings) (row : PORow)
    (matched : List Product) (n idx : ℕ) (p : Product) :
    (mkLine s row matched n idx p).price_unit =
      unitPriceThisProduct row matched n p := rfl

theorem mkLine_units_per_order (s : Settings) (row : PORow)
    (matched : List Product) (n idx : ℕ) (p : Product) :
    (mkLine s row matched n idx p).units_per_order =
      effUnitsPerOrder p.x_studio_tt_om_int := rfl

theorem expandLines_length (s : Settings) (row : PORow)
    (matched : List Product) (n : ℕ) :
    ∀ (idx : ℕ) (ps : List Product),
      (expandLines s row matched n idx ps).length = ps.length := by
  intro idx ps
  induction ps generalizing idx with
  | nil => rfl
  | cons p rest ih => simp [expandLines, ih]

theorem expandLines_getD (s : Settings) (row : PORow)
    (matched : List Product) (n : ℕ) :
    ∀ (ps : List Product) (idx i : ℕ), i < ps.length →
      (expandLines s row matched n idx ps).getD i default =
        mkLine s row matched n (idx + i) (ps.getD i default) := by
  intro ps
  induction ps with
  | nil => intro idx i hi; simp at hi
  | cons p rest ih =>
    intro idx i hi
    cases i with
    | zero => rfl
    | succ j =>
      have hj : j < rest.length := by simpa using hi
      have := ih (idx + 1) j hj
      simp only [expandLines, List.getD_cons_succ, this]
      congr 1
      omega

theorem effUnitsPerOrder_pos (k : ℕ) (hk : 0 < k) :
    effUnitsPerOrder (some k) = k := by
  show (if k = 0 then 1 else k) = k
  rw [if_neg (by omega)]

theorem pyInt_of_nonneg (q : ℚ) (h : 0 ≤ q) : pyInt q = ⌊q⌋ := if_pos h

theorem pyMod_nonneg (a b : ℚ) (hb : 0 < b) :
    0 ≤ pyMod a b := by
  unfold pyMod
  have h1 : (⌊a / b⌋ : ℚ) ≤ a / b := Int.floor_le _
  have h2 : b * (⌊a / b⌋ : ℚ) ≤ b * (a / b) :=
    mul_le_mul_of_nonneg_left h1 (le_of_lt hb)
  have h3 : b * (a / b) = a := by
    field_simp
  linarith

theorem floor_pyMod_nat (a : ℚ) (n : ℕ) :
    ⌊pyMod a (n : ℚ)⌋ = ⌊a⌋ - (n : ℤ) * ⌊a / (n : ℚ)⌋ := by
  unfold pyMod
  have h : (n : ℚ) * (⌊a / (n : ℚ)⌋ : ℚ) =
      (((n : ℤ) * ⌊a / (n : ℚ)⌋ : ℤ) : ℚ) := by
    push_cast
    ring
  rw [h, Int.floor_sub_int]

theorem expandLines_qty_sum_tail (s : Settings) (row : PORow)
    (p0 : Product) (prest : List Product) (n : ℕ) (hn : 1 < n) :
    ∀ (idx : ℕ), 0 < idx → ∀ (ps : List Product),
      ((expandLines s row (p0 :: prest) n idx ps).map
        (fun l => l.product_uom_qty)).sum =
      (ps.length : ℚ) *
        ((pyInt (totalUnitsBundle row (p0 :: prest) p0 / (n : ℚ)) : ℤ) : ℚ) := by
  intro idx hidx ps
  induction ps generalizing idx with
  | nil => simp [expandLines]
  | cons p rest ih =>
    simp only [expandLines, List.map_cons, List.sum_cons,
      mkLine_product_uom_qty]
    rw [ih (idx + 1) (by omega)]
    have hq : unitsThisProduct row (p0 :: prest) n idx p =
        ((pyInt (totalUnitsBundle row (p0 :: prest) p0 / (n : ℚ)) : ℤ) : ℚ) := by
      unfold unitsThisProduct
      rw [if_pos hn, if_neg (by omega)]
      rfl
    rw [hq, List.length_cons]
    push_cast
    ring

theorem expandLines_qty_sum_multi (s : Settings) (row : PORow)
    (p0 : Product) (prest : List Product)
    (hn : 1 < (p0 :: prest).length)
    (hB : 0 ≤ totalUnitsBundle row (p0 :: prest) p0) :
    ((expandLines s row (p0 :: prest) (p0 :: prest).length 0
        (p0 :: prest)).map (fun l => l.product_uom_qty)).sum =
      ((⌊totalUnitsBundle row (p0 :: prest) p0⌋ : ℤ) : ℚ) := by
  have hnQ : (0 : ℚ) < ((p0 :: prest).length : ℚ) := by
    have : 0 < (p0 :: prest).length := by omega
    exact_mod_cast this
  have hdiv : 0 ≤ totalUnitsBundle row (p0 :: prest) p0 /
      ((p0 :: prest).length : ℚ) := div_nonneg hB (le_of_lt hnQ)
  have hmod : 0 ≤ pyMod (totalUnitsBundle row (p0 :: prest) p0)
      ((p0 :: prest).length : ℚ) := pyMod_nonneg _ _ hnQ
  simp only [expandLines, List.map_cons, List.sum_cons,
    mkLine_product_uom_qty]
  rw [expandLines_qty_sum_tail s row p0 prest (p0 :: prest).length hn
    (0 + 1) (by omega) prest]
  have hq0 : unitsThisProduct row (p0 :: prest) (p0 :: prest).length 0 p0 =
      (((pyInt (totalUnitsBundle row (p0 :: prest) p0 /
            ((p0 :: prest).length : ℚ)) +
          pyInt (pyMod (totalUnitsBundle row (p0 :: prest) p0)
            ((p0 :: prest).length : ℚ))) : ℤ) : ℚ) := by
    unfold unitsThisProduct
    rw [if_pos hn, if_pos rfl]
  rw [hq0]
  have hz : (pyInt (totalUnitsBundle row (p0 :: prest) p0 /
        ((p0 :: prest).length : ℚ)) +
        pyInt (pyMod (totalUnitsBundle row (p0 :: prest) p0)
          ((p0 :: prest).length : ℚ))) +
      (prest.length : ℤ) *
        pyInt (totalUnitsBundle row (p0 :: prest) p0 /
          ((p0 :: prest).length : ℚ)) =
      ⌊totalUnitsBundle row (p0 :: prest) p0⌋ := by
    rw [pyInt_of_nonneg _ hdiv, pyInt_of_nonneg _ hmod, floor_pyMod_nat]
    have hL : (((p0 :: prest).length : ℕ) : ℤ) = (prest.length : ℤ) + 1 := by
      push_cast [List.length_cons]
      ring
    rw [hL]
    ring
  calc (((pyInt (totalUnitsBundle row (p0 :: prest) p0 /
            ((p0 :: prest).length : ℚ)) +
          pyInt (pyMod (totalUnitsBundle row (p0 :: prest) p0)
            ((p0 :: prest).length : ℚ))) : ℤ) : ℚ) +
        (prest.length : ℚ) *
          ((pyInt (totalUnitsBundle row (p0 :: prest) p0 /
            ((p0 :: prest).length : ℚ)) : ℤ) : ℚ)
      = (((pyInt (totalUnitsBundle row (p0 :: prest) p0 /
            ((p0 :: prest).length : ℚ)) +
          pyInt (pyMod (totalUnitsBundle row (p0 :: prest) p0)
            ((p0 :: prest).length : ℚ)) +
          (prest.length : ℤ) *
            pyInt (totalUnitsBundle row (p0 :: prest) p0 /
              ((p0 :: prest).length : ℚ))) : ℤ) : ℚ) := by
        push_cast
        ring
    _ = ((⌊totalUnitsBundle row (p0 :: prest) p0⌋ : ℤ) : ℚ) := by rw [hz]

/-- Claim C1 as stated is false on the code: ordered quantities are
floats, and the multi-variant split truncates.  At quantity 1.5 of
reference `888888` (two variants, first factor 3) the bundle total is
4.5, each variant receives `int(4.5 / 2) = 2` with remainder
`int(4.5 % 2) = int(0.5) = 0`, so the unit counts sum to 4, not
`1.5 × 3 = 4.5`. -/
theorem C1_counterexample :
    ((expandRow wSettings [prodE, prodF] rowFrac).1.map
      (fun l => l.product_uom_qty)).sum = 4 ∧
    rowFrac.num_of_order * ((3 : ℕ) : ℚ) = 9 / 2 ∧
    ((4 : ℚ) ≠ 9 / 2) := by
  refine ⟨?_, by norm_num [rowFrac], by norm_num⟩
  have hexp : (expandRow wSettings [prodE, prodF] rowFrac).1 =
      [mkLine wSettings rowFrac [prodE, prodF] 2 0 prodE,
       mkLine wSettings rowFrac [prodE, prodF] 2 1 prodF] := rfl
  rw [hexp]
  simp only [List.map_cons, List.map_nil, List.sum_cons, List.sum_nil,
    mkLine_product_uom_qty]
  have hBE : totalUnitsBundle rowFrac [prodE, prodF] prodE = 9 / 2 := by
    unfold totalUnitsBundle baseUnitsPerCase
    norm_num [rowFrac, prodE]
  have hBF : totalUnitsBundle rowFrac [prodE, prodF] prodF = 9 / 2 := by
    unfold totalUnitsBundle baseUnitsPerCase
    norm_num [rowFrac, prodE]
  have hfloor1 : ⌊(9 / 2 : ℚ) / ((2 : ℕ) : ℚ)⌋ = 2 := by
    rw [Int.floor_eq_iff]
    norm_num
  have hmod : pyMod (9 / 2 : ℚ) ((2 : ℕ) : ℚ) = 1 / 2 := by
    unfold pyMod
    rw [hfloor1]
    norm_num
  have hfloor2 : ⌊(1 / 2 : ℚ)⌋ = 0 := by
    rw [Int.floor_eq_iff]
    norm_num
  have h0 : unitsThisProduct rowFrac [prodE, prodF] 2 0 prodE = 2 := by
    unfold unitsThisProduct
    rw [if_pos (by norm_num), if_pos rfl, hBE,
      pyInt_of_nonneg _ (by norm_num),
      pyInt_of_nonneg _ (by rw [hmod]; norm_num), hfloor1, hmod, hfloor2]
    norm_num
  have h1 : unitsThisProduct rowFrac [prodE, prodF] 2 1 prodF = 2 := by
    unfold unitsThisProduct
    rw [if_pos (by norm_num), if_neg (by norm_num), hBF,
      pyInt_of_nonneg _ (by norm_num), hfloor1]
    norm_num
  rw [h0, h1]
  norm_num

/-- Claim C1 (amended): for a line of (non-negative, possibly fractional)
ordered quantity matching variants `p :: rest` with first factor `k > 0`,
the expander produces one line per variant; with one variant the unit
count is exactly `qty × k`; with `N > 1` variants each non-first variant
receives the truncation `int(B / N)` of the bundle total `B = qty × k`,
the first additionally `int(B mod N)`, and the unit counts sum to `⌊B⌋` —
equal to `B` exactly whenever `B` is an integer (in particular for
whole-number quantities), but not for fractional bundle totals. -/
theorem C1_expansion_conservation (s : Settings) (products : List Product)
    (row : PORow) (p : Product) (rest : List Product) (k : ℕ)
    (hm : products.filter (fun q => q.default_code = row.internal_reference) =
      p :: rest)
    (hk : p.x_studio_tt_om_int = some k) (hkpos : 0 < k)
    (hq : 0 ≤ row.num_of_order) :
    (expandRow s products row).1.length = (p :: rest).length ∧
    (rest = [] →
      ((expandRow s products row).1.map (fun l => l.product_uom_qty)).sum =
        row.num_of_order * (k : ℚ)) ∧
    (rest ≠ [] →
      ((expandRow s products row).1.map (fun l => l.product_uom_qty)).sum =
        ((⌊row.num_of_order * (k : ℚ)⌋ : ℤ) : ℚ) ∧
      (∀ i, i < (p :: rest).length →
        ((expandRow s products row).1.getD i default).product_uom_qty =
          (((pyInt (row.num_of_order * (k : ℚ) /
                ((p :: rest).length : ℚ)) +
              (if i = 0 then
                pyInt (pyMod (row.num_of_order * (k : ℚ))
                  ((p :: rest).length : ℚ))
               else 0)) : ℤ) : ℚ))) ∧
    (∀ m : ℤ, row.num_of_order * (k : ℚ) = (m : ℚ) →
      ((expandRow s products row).1.map (fun l => l.product_uom_qty)).sum =
        row.num_of_order * (k : ℚ)) := by
  have hbundle : ∀ x : Product, totalUnitsBundle row (p :: rest) x =
      row.num_of_order * (k : ℚ) := by
    intro x
    unfold totalUnitsBundle baseUnitsPerCase
    rw [List.headD_cons, hk]
    rfl
  have hout : (expandRow s products row).1 =
      expandLines s row (p :: rest) (p :: rest).length 0 (p :: rest) := by
    unfold expandRow
    rw [hm]
    rfl
  have hsingle : rest = [] →
      ((expandRow s products row).1.map (fun l => l.product_uom_qty)).sum =
        row.num_of_order * (k : ℚ) := by
    intro hnil
    subst hnil
    rw [hout]
    simp only [expandLines, List.map_cons, List.map_nil, List.sum_cons,
      List.sum_nil, mkLine_product_uom_qty]
    unfold unitsThisProduct
    rw [if_neg (by simp), hk, effUnitsPerOrder_pos k hkpos]
    ring
  have hmulti : rest ≠ [] →
      ((expandRow s products row).1.map (fun l => l.product_uom_qty)).sum =
        ((⌊row.num_of_order * (k : ℚ)⌋ : ℤ) : ℚ) := by
    intro hne
    cases rest with
    | nil => exact absurd rfl hne
    | cons q rest2 =>
      rw [hout, expandLines_qty_sum_multi s row p (q :: rest2) (by simp)
        (by rw [hbundle]; positivity), hbundle]
  refine ⟨by rw [hout]; exact expandLines_length _ _ _ _ _ _, hsingle,
    ?_, ?_⟩
  · intro hne
    refine ⟨hmulti hne, ?_⟩
    intro i hi
    rw [hout,
      expandLines_getD s row (p :: rest) (p :: rest).length (p :: rest) 0 i hi,
      mkLine_product_uom_qty]
    have hn : 1 < (p :: rest).length := by
      cases rest with
      | nil => exact absurd rfl hne
      | cons q rest2 => simp
    unfold unitsThisProduct
    rw [if_pos hn, hbundle]
    by_cases h0 : i = 0
    · subst h0
      simp
    · simp only [Nat.zero_add, if_neg h0, add_zero]
  · intro m hmB
    cases rest with
    | nil => exact hsingle rfl
    | cons q rest2 =>
      rw [hmulti (by simp), hmB]
      rw [Int.floor_intCast]

/-- Witness for C1: reference `654321` matches `[prodA, prodB]`
(first factor 2), whole ordered quantity 1: the amended statement's
multi-variant branch and integral-bundle exactness apply. -/
theorem C1_expansion_conservation_witness :
    (([prodA, prodB].filter
        (fun q => q.default_code = rowMulti.internal_reference) =
        prodA :: [prodB]) ∧
      prodA.x_studio_tt_om_int = some 2 ∧ 0 < 2 ∧
      (0 : ℚ) ≤ rowMulti.num_of_order) ∧
    (expandRow wSettings [prodA, prodB] rowMulti).1.length =
      (prodA :: [prodB]).length ∧
    (([prodB] : List Product) = [] →
      ((expandRow wSettings [prodA, prodB] rowMulti).1.map
        (fun l => l.product_uom_qty)).sum =
        rowMulti.num_of_order * ((2 : ℕ) : ℚ)) ∧
    (([prodB] : List Product) ≠ [] →
      ((expandRow wSettings [prodA, prodB] rowMulti).1.map
        (fun l => l.product_uom_qty)).sum =
        ((⌊rowMulti.num_of_order * ((2 : ℕ) : ℚ)⌋ : ℤ) : ℚ) ∧
      (∀ i, i < (prodA :: [prodB]).length →
        ((expandRow wSettings [prodA, prodB] rowMulti).1.getD i
            default).product_uom_qty =
          (((pyInt (rowMulti.num_of_order * ((2 : ℕ) : ℚ) /
                ((prodA :: [prodB]).length : ℚ)) +
              (if i = 0 then
                pyInt (pyMod (rowMulti.num_of_order * ((2 : ℕ) : ℚ))
                  ((prodA :: [prodB]).length : ℚ))
               else 0)) : ℤ) : ℚ))) ∧
    (∀ m : ℤ, rowMulti.num_of_order * ((2 : ℕ) : ℚ) = (m : ℚ) →
      ((expandRow wSettings [prodA, prodB] rowMulti).1.map
        (fun l => l.product_uom_qty)).sum =
        rowMulti.num_of_order * ((2 : ℕ) : ℚ)) :=
  ⟨⟨by decide, by decide, by decide, by decide⟩,
    C1_expansion_conservation wSettings [prodA, prodB] rowMulti prodA
      [prodB] 2 (by decide) (by decide) (by decide) (by decide)⟩

/-! ### C2 — multi-variant price basis -/

/-- Claim C2 as stated is false on the code: with two variants of factors
2 and 4 sharing reference `654321` and line price 8, the second variant's
unit price is `8 / 2 = 4` (the first variant's factor), not
`8 / 4 = 2` (its own factor). -/
theorem C2_counterexample :
    prodB.x_studio_tt_om_int = some 4 ∧
    ((expandRow wSettings [prodA, prodB] rowMulti).1.getD 1
        default).price_unit = 4 ∧
    rowMulti.price / ((4 : ℕ) : ℚ) = 2 ∧
    ((expandRow wSettings [prodA, prodB] rowMulti).1.getD 1
        default).price_unit ≠ rowMulti.price / ((4 : ℕ) : ℚ) := by
  have hpu : ((expandRow wSettings [prodA, prodB] rowMulti).1.getD 1
      default).price_unit = rowMulti.price / ((2 : ℕ) : ℚ) := rfl
  refine ⟨rfl, ?_, ?_, ?_⟩
  · rw [hpu]
    norm_num [rowMulti]
  · norm_num [rowMulti]
  · rw [hpu]
    norm_num [rowMulti]

/-- Claim C2 (amended): with more than one matching variant, every
resulting line's unit price equals the line price divided by the first
matched variant's (bundle) units-per-order factor — the same price for
all the variants, not the price over each variant's own factor. -/
theorem C2_multi_variant_price_basis (s : Settings) (products : List Product)
    (row : PORow) (p : Product) (rest : List Product)
    (hm : products.filter (fun q => q.default_code = row.internal_reference) =
      p :: rest)
    (hrest : rest ≠ []) :
    ∀ i, i < (p :: rest).length →
      ((expandRow s products row).1.getD i default).price_unit =
        row.price / ((baseUnitsPerCase p.x_studio_tt_om_int : ℕ) : ℚ) := by
  have hout : (expandRow s products row).1 =
      expandLines s row (p :: rest) (p :: rest).length 0 (p :: rest) := by
    unfold expandRow
    rw [hm]
    rfl
  have hn : 1 < (p :: rest).length := by
    cases rest with
    | nil => exact absurd rfl hrest
    | cons q rest2 => simp
  intro i hi
  rw [hout, expandLines_getD s row (p :: rest) (p :: rest).length (p :: rest)
    0 i hi, mkLine_price_unit]
  unfold unitPriceThisProduct
  rw [if_pos hn, List.headD_cons]

/-- Witness for C2 (amended): both lines of the `654321` expansion get
unit price `8 / 2 = 4`. -/
theorem C2_multi_variant_price_basis_witness :
    (([prodA, prodB].filter
        (fun q => q.default_code = rowMulti.internal_reference) =
        prodA :: [prodB]) ∧ ([prodB] : List Product) ≠ []) ∧
    (∀ i, i < (prodA :: [prodB]).length →
      ((expandRow wSettings [prodA, prodB] rowMulti).1.getD i
          default).price_unit =
        rowMulti.price /
          ((baseUnitsPerCase prodA.x_studio_tt_om_int : ℕ) : ℚ)) :=
  ⟨⟨by decide, by decide⟩,
    C2_multi_variant_price_basis wSettings [prodA, prodB] rowMulti prodA
      [prodB] (by decide) (by decide)⟩

/-! ### C10 — units-per-order default guards the price division -/

theorem effUnitsPerOrder_default (o : Option ℕ)
    (h : o = none ∨ o = some 0) : effUnitsPerOrder o = 1 := by
  rcases h with h | h <;> subst h <;> rfl

/-- Claim C10: with exactly one matching variant whose units-per-order
value is missing or zero, the factor is treated as 1: the single produced
line has unit count equal to the ordered quantity and unit price equal to
the line price (no division by zero). -/
theorem C10_units_default_guard (s : Settings) (products : List Product)
    (row : PORow) (p : Product)
    (hm : products.filter (fun q => q.default_code = row.internal_reference) =
      [p])
    (hf : p.x_studio_tt_om_int = none ∨ p.x_studio_tt_om_int = some 0) :
    (expandRow s products row).1.length = 1 ∧
    ((expandRow s products row).1.getD 0 default).units_per_order = 1 ∧
    ((expandRow s products row).1.getD 0 default).product_uom_qty =
      row.num_of_order ∧
    ((expandRow s products row).1.getD 0 default).price_unit = row.price := by
  have hout : (expandRow s products row).1 =
      expandLines s row [p] [p].length 0 [p] := by
    unfold expandRow
    rw [hm]
    rfl
  have heff := effUnitsPerOrder_default p.x_studio_tt_om_int hf
  rw [hout]
  refine ⟨rfl, ?_, ?_, ?_⟩
  · show effUnitsPerOrder p.x_studio_tt_om_int = 1
    exact heff
  · show unitsThisProduct row [p] 1 0 p = row.num_of_order
    unfold unitsThisProduct
    rw [if_neg (by omega), heff]
    norm_num
  · show unitPriceThisProduct row [p] 1 p = row.price
    unfold unitPriceThisProduct
    rw [if_neg (by omega), heff]
    norm_num

/-- Witness for C10: reference `111111` matches only `prodC`, whose
units-per-order value is absent; ordered quantity 2 at price 24 stays
2 units at unit price 24. -/
theorem C10_units_default_guard_witness :
    (([prodA, prodC].filter
        (fun q => q.default_code = rowSingle.internal_reference) = [prodC]) ∧
      (prodC.x_studio_tt_om_int = none ∨ prodC.x_studio_tt_om_int = some 0)) ∧
    (expandRow wSettings [prodA, prodC] rowSingle).1.length = 1 ∧
    ((expandRow wSettings [prodA, prodC] rowSingle).1.getD 0
        default).units_per_order = 1 ∧
    ((expandRow wSettings [prodA, prodC] rowSingle).1.getD 0
        default).product_uom_qty = rowSingle.num_of_order ∧
    ((expandRow wSettings [prodA, prodC] rowSingle).1.getD 0
        default).price_unit = rowSingle.price :=
  ⟨⟨by decide, Or.inl (by decide)⟩,
    C10_units_default_guard wSettings [prodA, prodC] rowSingle prodC
      (by decide) (Or.inl (by decide))⟩

/-! ### C8 — zero-match diagnostic -/

theorem processRows_cons (s : Settings) (products : List Product)
    (row : PORow) (rest : List PORow) :
    processRows s products (row :: rest) =
      ((expandRow s products row).1 ++ (processRows s products rest).1,
        (expandRow s products row).2 ++ (processRows s products rest).2) := rfl

/-- Claim C8: a validated line with no catalog match produces zero
expanded lines and exactly one diagnostic naming the unmatched code, and
the surrounding lines are still processed. -/
theorem C8_zero_match_diagnostic (s : Settings) (products : List Product)
    (row : PORow)
    (h : products.filter (fun p => p.default_code = row.internal_reference) =
      []) :
    (expandRow s products row).1 = [] ∧
    (expandRow s products row).2 =
      ["Product not found in Odoo: " ++ row.internal_reference ++
        " (Store: " ++ decString row.store_id ++ ", PO: " ++ row.po_no ++
        ")"] ∧
    (∀ pre post : List PORow,
      (processRows s products (pre ++ row :: post)).1 =
        (processRows s products pre).1 ++ (processRows s products post).1 ∧
      (processRows s products (pre ++ row :: post)).2 =
        (processRows s products pre).2 ++
          notFoundMsg row :: (processRows s products post).2) := by
  have he : expandRow s products row = ([], [notFoundMsg row]) := by
    unfold expandRow
    rw [h]
    rfl
  refine ⟨by rw [he], ?_, ?_⟩
  · rw [he]
    rfl
  intro pre post
  induction pre with
  | nil =>
    rw [List.nil_append, processRows_cons, he]
    constructor
    · rfl
    · rfl
  | cons r pre ih =>
    rw [List.cons_append, processRows_cons, processRows_cons]
    constructor
    · rw [ih.1]
      simp
    · rw [ih.2]
      simp

/-- Witness for C8: reference `999999` matches nothing; the row between
two matching rows contributes no lines and one diagnostic. -/
theorem C8_zero_match_diagnostic_witness :
    ([prodA, prodB].filter
        (fun p => p.default_code = rowNoMatch.internal_reference) = []) ∧
    (expandRow wSettings [prodA, prodB] rowNoMatch).1 = [] ∧
    (expandRow wSettings [prodA, prodB] rowNoMatch).2 =
      ["Product not found in Odoo: " ++ rowNoMatch.internal_reference ++
        " (Store: " ++ decString rowNoMatch.store_id ++ ", PO: " ++
        rowNoMatch.po_no ++ ")"] ∧
    (∀ pre post : List PORow,
      (processRows wSettings [prodA, prodB] (pre ++ rowNoMatch :: post)).1 =
        (processRows wSettings [prodA, prodB] pre).1 ++
          (processRows wSettings [prodA, prodB] post).1 ∧
      (processRows wSettings [prodA, prodB] (pre ++ rowNoMatch :: post)).2 =
        (processRows wSettings [prodA, prodB] pre).2 ++
          notFoundMsg rowNoMatch ::
            (processRows wSettings [prodA, prodB] post).2) :=
  ⟨by decide,
    C8_zero_match_diagnostic wSettings [prodA, prodB] rowNoMatch (by decide)⟩

/-! ### C3 — order-reference assignment -/

theorem string_append_left_cancel (p a b : String) (h : p ++ a = p ++ b) :
    a = b := by
  rcases p with ⟨pd⟩
  rcases a with ⟨ad⟩
  rcases b with ⟨bd⟩
  have hd : pd ++ ad = pd ++ bd := by
    have := congrArg String.data h
    simpa [String.data] using this
  have := List.append_cancel_left hd
  simp [this]

theorem soRefString_injective : Function.Injective soRefString :=
  fun a b h =>
    decString_injective (string_append_left_cancel "OATS00" _ _ h)

theorem uniqueStores_nodup (lines : List ExpandedLine) :
    (uniqueStores lines).Nodup :=
  ((List.perm_insertionSort _ _).nodup_iff).mpr (List.nodup_dedup _)

theorem uniqueStores_sorted_lt (lines : List ExpandedLine) :
    List.Sorted (fun a b : ℕ => a < b) (uniqueStores lines) :=
  (List.Pairwise.and (List.sorted_insertionSort _ _)
    (uniqueStores_nodup lines)).imp (fun h => lt_of_le_of_ne h.1 h.2)

theorem mkSummaries_length (s : Settings) (lines : List ExpandedLine)
    (starting_so_ref : ℕ) :
    ∀ (i0 : ℕ) (stores : List ℕ),
      (mkSummaries s lines starting_so_ref i0 stores).length =
        stores.length := by
  intro i0 stores
  induction stores generalizing i0 with
  | nil => rfl
  | cons a rest ih => simp [mkSummaries, ih]

theorem mkSummaries_getD (s : Settings) (lines : List ExpandedLine)
    (starting_so_ref : ℕ) :
    ∀ (stores : List ℕ) (i0 i : ℕ), i < stores.length →
      (mkSummaries s lines starting_so_ref i0 stores).getD i default =
        mkSummary s lines starting_so_ref (i0 + i) (stores.getD i 0) := by
  intro stores
  induction stores with
  | nil => intro i0 i h; simp at h
  | cons a rest ih =>
    intro i0 i h
    cases i with
    | zero => rfl
    | succ j =>
      have hj : j < rest.length := by simpa using h
      simp only [mkSummaries, List.getD_cons_succ]
      rw [ih (i0 + 1) j hj]
      congr 1
      omega

theorem assignSoRefs_getD (stores : List ℕ) (starting_so_ref : ℕ)
    (lines : List ExpandedLine) (i : ℕ) (hi : i < lines.length) :
    (assignSoRefs stores starting_so_ref lines).getD i default =
      { lines.getD i default with
        so_reference :=
          if (lines.getD i default).store_id ∈ stores then
            some (soRefString (starting_so_ref +
              stores.indexOf (lines.getD i default).store_id))
          else none } := by
  unfold assignSoRefs
  have h2 : i < (lines.map (fun l =>
      { l with so_reference :=
          if l.store_id ∈ stores then
            some (soRefString (starting_so_ref + stores.indexOf l.store_id))
          else none })).length := by simpa using hi
  rw [List.getD_eq_getElem _ _ h2, List.getD_eq_getElem _ _ hi]
  simp

theorem aggregate_fst (s : Settings) (starting_so_ref : ℕ)
    (lines : List ExpandedLine) (hne : lines ≠ []) :
    (aggregate s starting_so_ref lines).1 =
      mkSummaries s lines starting_so_ref 0 (uniqueStores lines) := by
  have hne' : lines.isEmpty = false := by
    cases lines
    · exact absurd rfl hne
    · rfl
  unfold aggregate
  rw [hne']
  rfl

theorem aggregate_snd (s : Settings) (starting_so_ref : ℕ)
    (lines : List ExpandedLine) (hne : lines ≠ []) :
    (aggregate s starting_so_ref lines).2 =
      assignSoRefs (uniqueStores lines) starting_so_ref lines := by
  have hne' : lines.isEmpty = false := by
    cases lines
    · exact absurd rfl hne
    · rfl
  unfold aggregate
  rw [hne']
  rfl

/-- Claim C3: on a non-empty line table with starting offset `S`, the
aggregator builds one summary per destination (destinations sorted
ascending); the `i`-th destination's order-reference code is the fixed
prefix `"OATS00"` followed by the decimal integer `S + i`; destinations
and numeric suffixes strictly increase and the codes are pairwise
distinct; and each line receives the code of its destination. -/
theorem C3_order_reference_assignment (s : Settings)
    (lines : List ExpandedLine) (S : ℕ) (hne : lines ≠ []) :
    ((aggregate s S lines).1.length = (uniqueStores lines).length) ∧
    (∀ i, i < (uniqueStores lines).length →
      ((aggregate s S lines).1.getD i default).store_id =
        (uniqueStores lines).getD i 0 ∧
      ((aggregate s S lines).1.getD i default).so_reference =
        "OATS00" ++ decString (S + i)) ∧
    (∀ i j, i < j → j < (uniqueStores lines).length →
      (uniqueStores lines).getD i 0 < (uniqueStores lines).getD j 0 ∧
      S + i < S + j ∧
      ((aggregate s S lines).1.getD i default).so_reference ≠
        ((aggregate s S lines).1.getD j default).so_reference) ∧
    (∀ i, i < lines.length → ∀ j, j < (uniqueStores lines).length →
      (lines.getD i default).store_id = (uniqueStores lines).getD j 0 →
      ((aggregate s S lines).2.getD i default).so_reference =
        some ("OATS00" ++ decString (S + j))) := by
  rw [aggregate_fst s S lines hne, aggregate_snd s S lines hne]
  refine ⟨mkSummaries_length s lines S 0 (uniqueStores lines), ?_, ?_, ?_⟩
  · intro i hi
    rw [mkSummaries_getD s lines S (uniqueStores lines) 0 i hi]
    refine ⟨rfl, ?_⟩
    show soRefString (S + (0 + i)) = "OATS00" ++ decString (S + i)
    rw [Nat.zero_add]
    rfl
  · intro i j hij hj
    have hi : i < (uniqueStores lines).length := lt_trans hij hj
    refine ⟨?_, by omega, ?_⟩
    · rw [List.getD_eq_getElem _ _ hi, List.getD_eq_getElem _ _ hj]
      exact List.pairwise_iff_get.mp (uniqueStores_sorted_lt lines)
        ⟨i, hi⟩ ⟨j, hj⟩ (by simpa using hij)
    · rw [mkSummaries_getD s lines S (uniqueStores lines) 0 i hi,
        mkSummaries_getD s lines S (uniqueStores lines) 0 j hj]
      intro heq
      have := soRefString_injective heq
      omega
  · intro i hi j hj hsid
    rw [assignSoRefs_getD (uniqueStores lines) S lines i hi]
    have hmem : (lines.getD i default).store_id ∈ uniqueStores lines := by
      rw [hsid, List.getD_eq_getElem _ _ hj]
      exact List.getElem_mem hj
    have hidx : (uniqueStores lines).indexOf
        (lines.getD i default).store_id = j := by
      rw [hsid, List.getD_eq_getElem _ _ hj]
      exact List.indexOf_getElem (uniqueStores_nodup lines) j hj
    simp only [if_pos hmem, hidx]
    rfl

/-- Witness for C3 on Scenario E: destinations 9 and 5 (input order),
starting offset 391: destination 5 gets `OATS00391`, destination 9 gets
`OATS00392`. -/
theorem C3_order_reference_assignment_witness :
    (([aggLine9, aggLine5] : List ExpandedLine) ≠ []) ∧
    ((aggregate wSettings 391 [aggLine9, aggLine5]).1.length =
      (uniqueStores [aggLine9, aggLine5]).length) ∧
    (∀ i, i < (uniqueStores [aggLine9, aggLine5]).length →
      ((aggregate wSettings 391 [aggLine9, aggLine5]).1.getD i
          default).store_id = (uniqueStores [aggLine9, aggLine5]).getD i 0 ∧
      ((aggregate wSettings 391 [aggLine9, aggLine5]).1.getD i
          default).so_reference = "OATS00" ++ decString (391 + i)) ∧
    (∀ i j, i < j → j < (uniqueStores [aggLine9, aggLine5]).length →
      (uniqueStores [aggLine9, aggLine5]).getD i 0 <
        (uniqueStores [aggLine9, aggLine5]).getD j 0 ∧
      391 + i < 391 + j ∧
      ((aggregate wSettings 391 [aggLine9, aggLine5]).1.getD i
          default).so_reference ≠
        ((aggregate wSettings 391 [aggLine9, aggLine5]).1.getD j
          default).so_reference) ∧
    (∀ i, i < ([aggLine9, aggLine5] : List ExpandedLine).length →
      ∀ j, j < (uniqueStores [aggLine9, aggLine5]).length →
      (([aggLine9, aggLine5] : List ExpandedLine).getD i default).store_id =
        (uniqueStores [aggLine9, aggLine5]).getD j 0 →
      ((aggregate wSettings 391 [aggLine9, aggLine5]).2.getD i
          default).so_reference = some ("OATS00" ++ decString (391 + j))) :=
  ⟨by decide,
    C3_order_reference_assignment wSettings [aggLine9, aggLine5] 391
      (by decide)⟩

/-! ### C7 — order-header dates -/

/-- Claim C7 as stated is false: destination 7's two lines carry order
dates `2024-02-01` (first in input order) and `2024-01-01`; the built
header carries the first line's date, not the earliest one. -/
theorem C7_counterexample :
    uniqueStores [dateLine1, dateLine2] = [7] ∧
    ((aggregate wSettings 391 [dateLine1, dateLine2]).1.getD 0
        default).order_date = "2024-02-01" ∧
    earliestString ((storeGroup [dateLine1, dateLine2] 7).map
      (fun l => l.order_date)) = "2024-01-01" ∧
    ((aggregate wSettings 391 [dateLine1, dateLine2]).1.getD 0
        default).order_date ≠
      earliestString ((storeGroup [dateLine1, dateLine2] 7).map
        (fun l => l.order_date)) ∧
    ((aggregate wSettings 391 [dateLine1, dateLine2]).1.getD 0
        default).delivery_date = "2024-02-03" ∧
    earliestString ((storeGroup [dateLine1, dateLine2] 7).map
      (fun l => l.delivery_date)) = "2024-01-03" := by
  decide

/-- Claim C7 (amended): the `i`-th OrderHeader carries the order date and
delivery date of its destination's first expanded line (in line order),
not the earliest ones; it carries the destination's order numbers
deduplicated, sorted and comma-joined, its summed total value, and its
line count. -/
theorem C7_order_header_summary (s : Settings) (lines : List ExpandedLine)
    (S : ℕ) (i : ℕ) (hi : i < (uniqueStores lines).length)
    (hne : lines ≠ []) :
    (((aggregate s S lines).1.getD i default).order_date =
      ((storeGroup lines ((uniqueStores lines).getD i 0)).map
        (fun l => l.order_date)).headD "") ∧
    (((aggregate s S lines).1.getD i default).delivery_date =
      ((storeGroup lines ((uniqueStores lines).getD i 0)).map
        (fun l => l.delivery_date)).headD "") ∧
    (((aggregate s S lines).1.getD i default).total_lines =
      (storeGroup lines ((uniqueStores lines).getD i 0)).length) ∧
    (((aggregate s S lines).1.getD i default).total_value =
      ((storeGroup lines ((uniqueStores lines).getD i 0)).map
        (fun l => l.total_price)).sum) ∧
    (∃ ps : List String,
      List.Sorted (fun a b : String => a ≤ b) ps ∧
      ps.Perm ((storeGroup lines ((uniqueStores lines).getD i 0)).map
        (fun l => l.po_number)).dedup ∧
      ((aggregate s S lines).1.getD i default).po_numbers =
        String.intercalate ", " ps ∧
      ((aggregate s S lines).1.getD i default).po_count = ps.length) := by
  rw [aggregate_fst s S lines hne,
    mkSummaries_getD s lines S (uniqueStores lines) 0 i hi]
  refine ⟨rfl, rfl, rfl, rfl, ?_⟩
  refine ⟨sortedPoList (storeGroup lines ((uniqueStores lines).getD i 0)),
    List.sorted_insertionSort _ _, List.perm_insertionSort _ _, rfl, rfl⟩

/-- Witness for C7 (amended) at the concrete two-line destination 7. -/
theorem C7_order_header_summary_witness :
    (0 < (uniqueStores [dateLine1, dateLine2]).length ∧
      ([dateLine1, dateLine2] : List ExpandedLine) ≠ []) ∧
    (((aggregate wSettings 391 [dateLine1, dateLine2]).1.getD 0
        default).order_date =
      ((storeGroup [dateLine1, dateLine2]
          ((uniqueStores [dateLine1, dateLine2]).getD 0 0)).map
        (fun l => l.order_date)).headD "") ∧
    (((aggregate wSettings 391 [dateLine1, dateLine2]).1.getD 0
        default).delivery_date =
      ((storeGroup [dateLine1, dateLine2]
          ((uniqueStores [dateLine1, dateLine2]).getD 0 0)).map
        (fun l => l.delivery_date)).headD "") ∧
    (((aggregate wSettings 391 [dateLine1, dateLine2]).1.getD 0
        default).total_lines =
      (storeGroup [dateLine1, dateLine2]
        ((uniqueStores [dateLine1, dateLine2]).getD 0 0)).length) ∧
    (((aggregate wSettings 391 [dateLine1, dateLine2]).1.getD 0
        default).total_value =
      ((storeGroup [dateLine1, dateLine2]
          ((uniqueStores [dateLine1, dateLine2]).getD 0 0)).map
        (fun l => l.total_price)).sum) ∧
    (∃ ps : List String,
      List.Sorted (fun a b : String => a ≤ b) ps ∧
      ps.Perm ((storeGroup [dateLine1, dateLine2]
          ((uniqueStores [dateLine1, dateLine2]).getD 0 0)).map
        (fun l => l.po_number)).dedup ∧
      ((aggregate wSettings 391 [dateLine1, dateLine2]).1.getD 0
          default).po_numbers = String.intercalate ", " ps ∧
      ((aggregate wSettings 391 [dateLine1, dateLine2]).1.getD 0
          default).po_count = ps.length) :=
  ⟨⟨by decide, by decide⟩,
    C7_order_header_summary wSettings [dateLine1, dateLine2] 391 0
      (by decide) (by decide)⟩

end PO
